import Mathlib

/-!
Verification of the pardon-prizes program
(src/pardon-prizes/programs/pardon-prizes/src/lib.rs).

The program is an Anchor program with three instructions:
`initialize_prize_pool`, `distribute_prizes` and `close_prize_pool`.
This file gives a shallow embedding of the instruction bodies together
with the account constraints of their `#[derive(Accounts)]` contexts that
matter for the observable behaviour (`has_one = authority`,
`close = authority`, `init`), and proves the specification claims over it.

Modelling conventions:
- `Pubkey` (32-byte account key) is modelled as `Nat` with equality.
- `u8`/`u64` values are modelled as `Nat`.  The Anchor toolchain builds the
  program with arithmetic overflow checks, and an arithmetic panic aborts
  the whole transaction, so on every input on which an instruction
  succeeds the `u64` arithmetic agrees with the `Nat` arithmetic used here.
- A token account is modelled by its `amount` balance.  The SPL token
  transfer performed through CPI is modelled by `spl_transfer`, following
  the specification of the Custody Service collaborator: it moves `amount`
  from the source to the destination and fails when the source balance is
  insufficient.
- A failed instruction rolls back the whole transaction, so the embedded
  instructions return `Except`: on an error no new state is produced and
  all accounts keep their previous contents.
-/

namespace PardonPrizes

/-- Decidable equality on `Except` results, used to evaluate the embedded
instructions on concrete inputs. -/
instance instDecEqExcept {e a : Type} [DecidableEq e] [DecidableEq a] :
    DecidableEq (Except e a) := fun x y =>
  match x, y with
  | Except.ok v, Except.ok w =>
    if h : v = w then isTrue (by rw [h])
    else isFalse (by intro hc; cases hc; exact h rfl)
  | Except.error v, Except.error w =>
    if h : v = w then isTrue (by rw [h])
    else isFalse (by intro hc; cases hc; exact h rfl)
  | Except.ok v, Except.error w => isFalse (by intro hc; cases hc)
  | Except.error v, Except.ok w => isFalse (by intro hc; cases hc)

/-- Account keys (`Pubkey` in the source), modelled as `Nat`. -/
abbrev Pubkey := Nat

/-- `WinnerEntry` (lib.rs 208-213): one candidate winner in a
`distribute_prizes` batch. `rank` and `score` are `u8` in the source. -/
structure WinnerEntry where
  wallet : Pubkey
  rank : Nat
  score : Nat
  deriving DecidableEq

/-- `PrizePool` (lib.rs 193-199): the persisted per-period account. -/
structure PrizePool where
  authority : Pubkey
  week_id : String
  total_distributed : Nat
  bump : Nat
  deriving DecidableEq

/-- `PrizeDistributed` (lib.rs 215-222): the event emitted once per
successful payout. -/
structure PrizeDistributed where
  winner : Pubkey
  rank : Nat
  score : Nat
  amount : Nat
  week_id : String
  deriving DecidableEq

/-- Errors an instruction of the program can fail with.  The first four
constructors are exactly the variants of the source's `#[error_code] enum
ErrorCode` (lib.rs 224-234).  The remaining constructors are errors raised
by the Anchor framework or by the SPL token program, which the program
propagates but does not declare itself:
`ConstraintHasOne` is the framework error for a violated
`has_one = authority` constraint, `AccountAlreadyInUse` is the failure of
the `init` constraint when the account for the given seeds already exists,
`AccountNotInitialized` is the failure to load a required account whose
record no longer exists, and `SplInsufficientFunds` is the token program
rejecting a transfer for lack of balance. -/
inductive ProgramError where
  | Unauthorized
  | InvalidRank
  | ScoreTooLow
  | InsufficientFunds
  | ConstraintHasOne
  | AccountAlreadyInUse
  | AccountNotInitialized
  | SplInsufficientFunds
  deriving DecidableEq

/-- Is the error one of the variants the program itself declares in its
`#[error_code] enum ErrorCode` (lib.rs 224-234)?  The source enum has
exactly the four variants `Unauthorized`, `InvalidRank`, `ScoreTooLow` and
`InsufficientFunds`; in particular it declares no `CustodyFailure` and no
`AlreadyExists`. -/
def isErrorCode : ProgramError → Bool
  | ProgramError.Unauthorized => true
  | ProgramError.InvalidRank => true
  | ProgramError.ScoreTooLow => true
  | ProgramError.InsufficientFunds => true
  | _ => false

/-- `calculate_prize` (lib.rs 128-136): tiered payout schedule.  The
source is a `match` on the `u8` rank with arms `1`, `2`, `3`, `4..=10`
and a default arm returning `0`; the arithmetic is `u64`
multiply-then-divide with truncation. -/
def calculate_prize (rank : Nat) (total : Nat) : Nat :=
  if rank = 1 then total * 50 / 100
  else if rank = 2 then total * 20 / 100
  else if rank = 3 then total * 10 / 100
  else if 4 ≤ rank ∧ rank ≤ 10 then total * 20 / 100 / 7
  else 0

/-- The validation loop of `distribute_prizes` (lib.rs 45-49): scans the
batch in input order; for each entry `require!` first checks
`rank > 0 && rank <= 10` (raising `InvalidRank`) and then `score >= 80`
(raising `ScoreTooLow`). -/
def validate_winners : List WinnerEntry → Except ProgramError Unit
  | [] => Except.ok ()
  | w :: ws =>
    if w.rank > 0 ∧ w.rank ≤ 10 then
      if w.score ≥ 80 then validate_winners ws
      else Except.error ProgramError.ScoreTooLow
    else Except.error ProgramError.InvalidRank

/-- Modelled from the spec: the Custody Service transfer capability
(`token::transfer` in the source, performed by the external SPL token
program): moves `amount` from the source balance to the destination
balance and fails with the token program's insufficient-funds error when
the source balance is smaller than `amount`.  Returns the new
(source, destination) balances. -/
def spl_transfer (source dest amount : Nat) : Except ProgramError (Nat × Nat) :=
  if amount ≤ source then Except.ok (source - amount, dest + amount)
  else Except.error ProgramError.SplInsufficientFunds

/-- The mutable state threaded through the payout loop of
`distribute_prizes`: the two token-account balances, the pool's
accumulator and the events emitted so far. -/
structure PayoutState where
  pool_token : Nat
  winner_token : Nat
  total_distributed : Nat
  events : List PrizeDistributed
  deriving DecidableEq

/-- The payout loop of `distribute_prizes` (lib.rs 52-84): for each entry
in input order, compute `prize_amount = calculate_prize(rank,
total_available)` with `total_available` the balance read once before the
loop; if the amount is positive, transfer it from the pool token account
to the winner token account, add it to `total_distributed` and emit a
`PrizeDistributed` event carrying the entry's wallet, rank and score, the
amount and the pool's `week_id`. -/
def payout_loop (week_id : String) (total_available : Nat) :
    List WinnerEntry → PayoutState → Except ProgramError PayoutState
  | [], s => Except.ok s
  | w :: ws, s =>
    let prize_amount := calculate_prize w.rank total_available
    if prize_amount > 0 then
      match spl_transfer s.pool_token s.winner_token prize_amount with
      | Except.error e => Except.error e
      | Except.ok (from_bal, to_bal) =>
        payout_loop week_id total_available ws
          { pool_token := from_bal
            winner_token := to_bal
            total_distributed := s.total_distributed + prize_amount
            events := s.events ++ [{ winner := w.wallet, rank := w.rank,
                                     score := w.score, amount := prize_amount,
                                     week_id := week_id }] }
    else
      payout_loop week_id total_available ws s

/-- The accounts of the `DistributePrizes` context (lib.rs 156-170):
the pool record, the pool's token account balance, the single winner
token account balance supplied with the call, and the key of the signing
`authority` account. -/
structure DistributeAccounts where
  prize_pool : PrizePool
  prize_pool_token_amount : Nat
  winner_token_amount : Nat
  authority : Pubkey
  deriving DecidableEq

/-- Instruction `distribute_prizes` (lib.rs 29-87).  In source order:
`require!` that the pool's stored authority equals the signer
(`Unauthorized`); read `total_available` from the pool token account once
and `require!` it is positive (`InsufficientFunds`); run the validation
loop over the whole batch; then run the payout loop.  On success it
returns the updated accounts and the list of emitted events; on an error
the transaction is rolled back and no state is produced. -/
def distribute_prizes (accs : DistributeAccounts) (winners : List WinnerEntry) :
    Except ProgramError (DistributeAccounts × List PrizeDistributed) :=
  if accs.prize_pool.authority = accs.authority then
    let total_available := accs.prize_pool_token_amount
    if total_available > 0 then
      match validate_winners winners with
      | Except.error e => Except.error e
      | Except.ok _ =>
        match payout_loop accs.prize_pool.week_id total_available winners
            { pool_token := accs.prize_pool_token_amount
              winner_token := accs.winner_token_amount
              total_distributed := accs.prize_pool.total_distributed
              events := [] } with
        | Except.error e => Except.error e
        | Except.ok s =>
          Except.ok
            ({ accs with
                prize_pool := { accs.prize_pool with total_distributed := s.total_distributed }
                prize_pool_token_amount := s.pool_token
                winner_token_amount := s.winner_token },
             s.events)
    else Except.error ProgramError.InsufficientFunds
  else Except.error ProgramError.Unauthorized

/-- The accounts of the `ClosePrizePool` context (lib.rs 172-191). -/
structure CloseAccounts where
  prize_pool : PrizePool
  prize_pool_token_amount : Nat
  authority_token_amount : Nat
  authority : Pubkey
  deriving DecidableEq

/-- Instruction `close_prize_pool` (lib.rs 93-121) together with the
`has_one = authority` constraint of its `ClosePrizePool` context
(lib.rs 172-191).  The framework checks `has_one` while loading the
accounts, before the instruction body runs, and fails with
`ConstraintHasOne` when the pool's stored authority differs from the
passed `authority` account; consequently the body's own `require!`
raising `Unauthorized` can never fire.  The body reads the remaining pool
token balance and, if positive, transfers all of it to the authority's
token account.  Returns the final (pool token, authority token)
balances. -/
def close_prize_pool (accs : CloseAccounts) : Except ProgramError (Nat × Nat) :=
  if accs.prize_pool.authority = accs.authority then
    if accs.prize_pool.authority = accs.authority then
      let remaining := accs.prize_pool_token_amount
      if remaining > 0 then
        match spl_transfer accs.prize_pool_token_amount accs.authority_token_amount remaining with
        | Except.error e => Except.error e
        | Except.ok (from_bal, to_bal) => Except.ok (from_bal, to_bal)
      else Except.ok (accs.prize_pool_token_amount, accs.authority_token_amount)
    else Except.error ProgramError.Unauthorized
  else Except.error ProgramError.ConstraintHasOne

/-- The live account store: which `PrizePool` record, if any, exists for
each `week_id` (the account derived from seeds
`[b"prize_pool", week_id]`). -/
abbrev PoolStore := String → Option PrizePool

/-- Instruction `initialize_prize_pool` (lib.rs 13-23) together with the
`init` constraint of its `InitializePrizePool` context (lib.rs 138-154):
creating the pool account fails when an account for the same `week_id`
already exists (the framework's account-already-in-use failure —
the program declares no error code of its own for this case); otherwise a
fresh record is created with the signer as authority and
`total_distributed = 0`. -/
def initialize_prize_pool (pools : PoolStore) (authority : Pubkey)
    (week_id : String) (bump : Nat) : Except ProgramError PoolStore :=
  match pools week_id with
  | some _ => Except.error ProgramError.AccountAlreadyInUse
  | none =>
    Except.ok (fun k =>
      if k = week_id then
        some { authority := authority, week_id := week_id,
               total_distributed := 0, bump := bump }
      else pools k)

/-- `close_prize_pool` at the level of the live account store: the pool
record for `week_id` must still exist (otherwise the framework cannot
load the account and the call fails), and on success the
`close = authority` constraint of `ClosePrizePool` (lib.rs 172-191)
removes the record from the store. -/
def close_prize_pool_live (pools : PoolStore) (week_id : String)
    (pool_token authority_token : Nat) (caller : Pubkey) :
    Except ProgramError (PoolStore × Nat × Nat) :=
  match pools week_id with
  | none => Except.error ProgramError.AccountNotInitialized
  | some pool =>
    match close_prize_pool { prize_pool := pool,
                             prize_pool_token_amount := pool_token,
                             authority_token_amount := authority_token,
                             authority := caller } with
    | Except.error e => Except.error e
    | Except.ok (from_bal, to_bal) =>
      Except.ok (fun k => if k = week_id then none else pools k, from_bal, to_bal)


/-- Elimination of a successful `distribute_prizes` call: the authority and
funds checks passed, validation passed, the payout loop succeeded, and the
returned accounts and events are built from its final state. -/
theorem distribute_prizes_ok {accs : DistributeAccounts} {winners : List WinnerEntry}
    {accs2 : DistributeAccounts} {events : List PrizeDistributed}
    (h : distribute_prizes accs winners = Except.ok (accs2, events)) :
    accs.prize_pool.authority = accs.authority
    ∧ accs.prize_pool_token_amount > 0
    ∧ validate_winners winners = Except.ok ()
    ∧ ∃ s : PayoutState,
      payout_loop accs.prize_pool.week_id accs.prize_pool_token_amount winners
        { pool_token := accs.prize_pool_token_amount
          winner_token := accs.winner_token_amount
          total_distributed := accs.prize_pool.total_distributed
          events := [] } = Except.ok s
      ∧ accs2 = { accs with
            prize_pool := { accs.prize_pool with total_distributed := s.total_distributed }
            prize_pool_token_amount := s.pool_token
            winner_token_amount := s.winner_token }
      ∧ events = s.events := by
  simp only [distribute_prizes] at h
  split at h
  · rename_i hauth
    split at h
    · rename_i hfunds
      split at h
      · cases h
      · rename_i u hu
        split at h
        · cases h
        · rename_i s2 hs2
          cases h
          cases u
          exact ⟨hauth, hfunds, hu, s2, hs2, rfl, rfl⟩
    · cases h
  · cases h

/-- In the payout loop the accumulator never decreases. -/
theorem payout_loop_total_mono {week_id : String} {tl : Nat} :
    ∀ {ws : List WinnerEntry} {s s2 : PayoutState},
      payout_loop week_id tl ws s = Except.ok s2 →
      s.total_distributed ≤ s2.total_distributed := by
  intro ws
  induction ws with
  | nil => intro s s2 h; cases h; exact Nat.le_refl _
  | cons w rest ih =>
    intro s s2 h
    simp only [payout_loop] at h
    split at h
    · split at h
      · cases h
      · rename_i p hp
        have := ih h
        simp at this
        omega
    · exact ih h

/-- The events appended by a successful payout loop: exactly one event per
entry with a positive computed amount, in input order. -/
theorem payout_loop_events {week_id : String} {tl : Nat} :
    ∀ {ws : List WinnerEntry} {s s2 : PayoutState},
      payout_loop week_id tl ws s = Except.ok s2 →
      s2.events = s.events ++ ws.filterMap (fun w =>
        if 0 < calculate_prize w.rank tl then
          some { winner := w.wallet, rank := w.rank, score := w.score,
                 amount := calculate_prize w.rank tl, week_id := week_id }
        else none) := by
  intro ws
  induction ws with
  | nil => intro s s2 h; cases h; simp
  | cons w rest ih =>
    intro s s2 h
    simp only [payout_loop] at h
    split at h
    · rename_i hpos
      split at h
      · cases h
      · rename_i p hp
        have he := ih h
        simp only [List.filterMap_cons, if_pos hpos]
        simp at he
        simp [he]
    · rename_i hpos
      have he := ih h
      rw [List.filterMap_cons, if_neg hpos]
      exact he

/-- A successful payout loop credits every transferred amount to the single
winner token account. -/
theorem payout_loop_winner_token {week_id : String} {tl : Nat} :
    ∀ {ws : List WinnerEntry} {s s2 : PayoutState},
      payout_loop week_id tl ws s = Except.ok s2 →
      s2.winner_token = s.winner_token + ((ws.filterMap (fun w =>
        if 0 < calculate_prize w.rank tl then some (calculate_prize w.rank tl)
        else none)).sum) := by
  intro ws
  induction ws with
  | nil => intro s s2 h; cases h; simp
  | cons w rest ih =>
    intro s s2 h
    simp only [payout_loop] at h
    split at h
    · rename_i hpos
      split at h
      · cases h
      · rename_i p hp
        have he := ih h
        simp only [spl_transfer] at hp
        split at hp
        · cases hp
          rw [List.filterMap_cons, if_pos hpos]
          simp at he
          simp [he]
          omega
        · cases hp
    · rename_i hpos
      have he := ih h
      rw [List.filterMap_cons, if_neg hpos]
      exact he

/-- The payout loop can only fail with the token program's
insufficient-funds error. -/
theorem payout_loop_error_eq {week_id : String} {tl : Nat} :
    ∀ {ws : List WinnerEntry} {s : PayoutState} {e : ProgramError},
      payout_loop week_id tl ws s = Except.error e →
      e = ProgramError.SplInsufficientFunds := by
  intro ws
  induction ws with
  | nil => intro s e h; cases h
  | cons w rest ih =>
    intro s e h
    simp only [payout_loop] at h
    split at h
    · split at h
      · rename_i hp
        simp only [spl_transfer] at hp
        split at hp
        · cases hp
        · cases hp; cases h; rfl
      · exact ih h
    · exact ih h

/-- The validation loop fails exactly on the first offending entry, with
`InvalidRank` when that entry's rank is out of range (the rank `require!`
runs first) and with `ScoreTooLow` when its rank is fine but its score is
below 80. -/
theorem validate_winners_find :
    ∀ {ws : List WinnerEntry} {w0 : WinnerEntry},
      ws.find? (fun w => !(decide (w.rank > 0 ∧ w.rank ≤ 10) && decide (w.score ≥ 80))) = some w0 →
      validate_winners ws =
        Except.error (if w0.rank > 0 ∧ w0.rank ≤ 10 then ProgramError.ScoreTooLow
                      else ProgramError.InvalidRank) := by
  intro ws
  induction ws with
  | nil => intro w0 h; cases h
  | cons w rest ih =>
    intro w0 h
    simp only [List.find?_cons] at h
    by_cases hrank : w.rank > 0 ∧ w.rank ≤ 10
    · by_cases hscore : w.score ≥ 80
      · simp only [decide_eq_true hrank, decide_eq_true hscore, Bool.and_self,
          Bool.not_true] at h
        simp only [validate_winners, if_pos hrank, if_pos hscore]
        exact ih h
      · simp only [decide_eq_true hrank, decide_eq_false hscore, Bool.true_and,
          Bool.not_false] at h
        cases h
        simp only [validate_winners, if_pos hrank, if_neg hscore, if_pos hrank]
    · simp only [decide_eq_false hrank, Bool.false_and, Bool.not_false] at h
      cases h
      simp only [validate_winners, if_neg hrank]

/-- The validation loop never inspects the `wallet` field. -/
theorem validate_winners_map_wallet (d : Pubkey) :
    ∀ ws : List WinnerEntry,
      validate_winners (ws.map (fun w => { w with wallet := d })) = validate_winners ws := by
  intro ws
  induction ws with
  | nil => rfl
  | cons w rest ih =>
    simp only [List.map_cons, validate_winners]
    by_cases hrank : w.rank > 0 ∧ w.rank ≤ 10
    · by_cases hscore : w.score ≥ 80
      · simp only [if_pos hrank, if_pos hscore]; exact ih
      · simp only [if_pos hrank, if_neg hscore]
    · simp only [if_neg hrank]

/-- The payout loop uses each entry's `wallet` only in the emitted event:
replacing every wallet by `d` leaves the balances, the accumulator and the
success or failure of the loop unchanged, and replaces the `winner` field
of each event by `d`. -/
theorem payout_loop_map_wallet (d : Pubkey) {week_id : String} {tl : Nat} :
    ∀ (ws : List WinnerEntry) (p wt td : Nat) (evs : List PrizeDistributed),
      payout_loop week_id tl (ws.map (fun w => { w with wallet := d }))
        { pool_token := p, winner_token := wt, total_distributed := td,
          events := evs.map (fun ev => { ev with winner := d }) }
      = Except.map
          (fun s2 => { pool_token := s2.pool_token, winner_token := s2.winner_token,
                       total_distributed := s2.total_distributed,
                       events := s2.events.map (fun ev => { ev with winner := d }) })
          (payout_loop week_id tl ws
            { pool_token := p, winner_token := wt, total_distributed := td, events := evs }) := by
  intro ws
  induction ws with
  | nil => intro p wt td evs; rfl
  | cons w rest ih =>
    intro p wt td evs
    simp only [List.map_cons, payout_loop]
    by_cases hpos : calculate_prize w.rank tl > 0
    · simp only [if_pos hpos]
      cases htr : spl_transfer p wt (calculate_prize w.rank tl) with
      | error e => simp [htr, Except.map]
      | ok pr =>
        obtain ⟨fb, tb⟩ := pr
        simp only [htr]
        have hmap : (evs.map (fun ev => { ev with winner := d })) ++
            ([{ winner := d, rank := w.rank, score := w.score,
                amount := calculate_prize w.rank tl, week_id := week_id }] : List PrizeDistributed)
            = (evs ++ ([{ winner := w.wallet, rank := w.rank, score := w.score,
                          amount := calculate_prize w.rank tl, week_id := week_id }] :
                List PrizeDistributed)).map
                (fun ev => { ev with winner := d }) := by
          simp
        rw [hmap]
        exact ih fb tb (td + calculate_prize w.rank tl) _
    · simp only [if_neg hpos]
      exact ih p wt td evs

/-- Amounts of the events produced for a batch are exactly the positive
computed prizes of the batch, in order. -/
theorem events_amounts (week_id : String) (tl : Nat) :
    ∀ ws : List WinnerEntry,
      ((ws.filterMap (fun w =>
          if 0 < calculate_prize w.rank tl then
            some { winner := w.wallet, rank := w.rank, score := w.score,
                   amount := calculate_prize w.rank tl, week_id := week_id }
          else none)).map PrizeDistributed.amount)
        = ws.filterMap (fun w =>
            if 0 < calculate_prize w.rank tl then some (calculate_prize w.rank tl)
            else none) := by
  intro ws
  induction ws with
  | nil => rfl
  | cons w rest ih =>
    by_cases hp : 0 < calculate_prize w.rank tl
    · simp only [List.filterMap_cons, if_pos hp, List.map_cons, ih]
    · simp only [List.filterMap_cons, if_neg hp, ih]

/-- C2: `calculate_prize` implements the fixed tiered schedule: 50% for
rank 1, 20% for rank 2, 10% for rank 3, `total * 20 / 100 / 7` for each
rank in [4,10], and 0 for every rank outside [1,10], all with truncating
integer division; in particular at total 1000 the prizes for ranks
1,2,3,4 are 500, 200, 100 and 28. -/
theorem C2_calculate_prize_schedule :
    (∀ t : Nat, calculate_prize 1 t = t * 50 / 100
      ∧ calculate_prize 2 t = t * 20 / 100
      ∧ calculate_prize 3 t = t * 10 / 100)
    ∧ (∀ t r : Nat, 4 ≤ r → r ≤ 10 → calculate_prize r t = t * 20 / 100 / 7)
    ∧ (∀ t r : Nat, r < 1 ∨ 10 < r → calculate_prize r t = 0)
    ∧ calculate_prize 1 1000 = 500 ∧ calculate_prize 2 1000 = 200
    ∧ calculate_prize 3 1000 = 100 ∧ calculate_prize 4 1000 = 28 := by
  refine ⟨fun t => ⟨rfl, rfl, rfl⟩, ?_, ?_, by decide, by decide, by decide, by decide⟩
  · intro t r h4 h10
    unfold calculate_prize
    rw [if_neg (by omega), if_neg (by omega), if_neg (by omega), if_pos ⟨by omega, h10⟩]
  · intro t r hr
    unfold calculate_prize
    rw [if_neg (by omega), if_neg (by omega), if_neg (by omega), if_neg (by omega)]

/-- Witness for C2 at rank 7, total 700 and at the out-of-range rank 11. -/
theorem C2_wit :
    calculate_prize 7 700 = 700 * 20 / 100 / 7 ∧ calculate_prize 11 1000 = 0 :=
  ⟨C2_calculate_prize_schedule.2.1 700 7 (by decide) (by decide),
   C2_calculate_prize_schedule.2.2.1 1000 11 (Or.inr (by decide))⟩

/-- C1 as stated is false on the code: validation does not require the
ranks in a batch to be distinct, so in the batch of three rank-1 score-80
entries every entry passes validation, yet with available balance 1000
the computed prizes sum to 3 * 500 = 1500 > 1000. -/
theorem C1_cex :
    (∀ w ∈ ([{ wallet := 1, rank := 1, score := 80 },
             { wallet := 2, rank := 1, score := 80 },
             { wallet := 3, rank := 1, score := 80 }] : List WinnerEntry),
        (w.rank > 0 ∧ w.rank ≤ 10) ∧ w.score ≥ 80)
    ∧ ¬ ((([{ wallet := 1, rank := 1, score := 80 },
              { wallet := 2, rank := 1, score := 80 },
              { wallet := 3, rank := 1, score := 80 }] : List WinnerEntry).map
            (fun w => calculate_prize w.rank 1000)).sum ≤ 1000) := by decide

/-- C1 (amended): for every batch in which every entry passes validation
(rank in [1,10] and score at least 80) and whose ranks are pairwise
distinct, the sum over the batch of `calculate_prize(rank, available)` is
at most `available`, the pool balance read once at the start of the
`distribute_prizes` call. -/
theorem C1_amended_sum_le_available (winners : List WinnerEntry) (available : Nat)
    (hvalid : ∀ w ∈ winners, (w.rank > 0 ∧ w.rank ≤ 10) ∧ w.score ≥ 80)
    (hnodup : (winners.map WinnerEntry.rank).Nodup) :
    (winners.map (fun w => calculate_prize w.rank available)).sum ≤ available := by
  have hmap : winners.map (fun w => calculate_prize w.rank available)
      = (winners.map WinnerEntry.rank).map (fun r => calculate_prize r available) := by
    simp [List.map_map]
  rw [hmap, ← List.sum_toFinset _ hnodup]
  have hsub : (winners.map WinnerEntry.rank).toFinset ⊆ Finset.range 11 := by
    intro r hr
    rw [List.mem_toFinset] at hr
    obtain ⟨w, hw, rfl⟩ := List.mem_map.mp hr
    have hb := (hvalid w hw).1
    exact Finset.mem_range.mpr (by omega)
  calc (winners.map WinnerEntry.rank).toFinset.sum (fun r => calculate_prize r available)
      ≤ ∑ r in Finset.range 11, calculate_prize r available :=
        Finset.sum_le_sum_of_subset hsub
    _ ≤ available := by
        simp [Finset.sum_range_succ, calculate_prize]
        omega

/-- Witness for C1 (amended) on the two-entry batch with ranks 1 and 2 at
available balance 1000: the prize sum 500 + 200 is at most 1000. -/
theorem C1_wit :
    (([{ wallet := 1, rank := 1, score := 80 },
       { wallet := 2, rank := 2, score := 95 }] : List WinnerEntry).map
        (fun w => calculate_prize w.rank 1000)).sum ≤ 1000 :=
  C1_amended_sum_le_available _ 1000 (by decide) (by decide)

/-- C3: when the caller is the pool's authority and the pool token balance
is positive, a batch containing at least one offending entry makes
`distribute_prizes` fail with the error determined by the first offending
entry — `InvalidRank` when that entry's rank is outside [1,10] (the rank
check runs first), otherwise `ScoreTooLow` — even when other entries of
the batch are valid.  The failing call returns an error and never a
result, so the transaction is rolled back: no transfer is attempted,
`total_distributed` is unchanged and no events are emitted. -/
theorem C3_validation_all_or_nothing (accs : DistributeAccounts)
    (winners : List WinnerEntry) (w0 : WinnerEntry)
    (hauth : accs.prize_pool.authority = accs.authority)
    (hfunds : accs.prize_pool_token_amount > 0)
    (hfirst : winners.find?
        (fun w => !(decide (w.rank > 0 ∧ w.rank ≤ 10) && decide (w.score ≥ 80)))
      = some w0) :
    distribute_prizes accs winners =
      Except.error (if w0.rank > 0 ∧ w0.rank ≤ 10 then ProgramError.ScoreTooLow
                    else ProgramError.InvalidRank)
    ∧ ∀ r, distribute_prizes accs winners ≠ Except.ok r := by
  have hv := validate_winners_find hfirst
  have h1 : distribute_prizes accs winners =
      Except.error (if w0.rank > 0 ∧ w0.rank ≤ 10 then ProgramError.ScoreTooLow
                    else ProgramError.InvalidRank) := by
    simp only [distribute_prizes, if_pos hauth, if_pos hfunds, hv]
  exact ⟨h1, fun r hc => by rw [h1] at hc; cases hc⟩

/-- Witness for C3: an authorized, funded call whose batch holds a valid
entry followed by a rank-11 entry fails with `InvalidRank`. -/
theorem C3_wit :
    distribute_prizes
      { prize_pool := { authority := 1, week_id := "w3", total_distributed := 0, bump := 0 },
        prize_pool_token_amount := 1000, winner_token_amount := 0, authority := 1 }
      [{ wallet := 5, rank := 1, score := 90 }, { wallet := 6, rank := 11, score := 90 }]
      = Except.error
          (if ({ wallet := 6, rank := 11, score := 90 } : WinnerEntry).rank > 0
              ∧ ({ wallet := 6, rank := 11, score := 90 } : WinnerEntry).rank ≤ 10
           then ProgramError.ScoreTooLow else ProgramError.InvalidRank)
    ∧ ∀ r, distribute_prizes
        { prize_pool := { authority := 1, week_id := "w3", total_distributed := 0, bump := 0 },
          prize_pool_token_amount := 1000, winner_token_amount := 0, authority := 1 }
        [{ wallet := 5, rank := 1, score := 90 }, { wallet := 6, rank := 11, score := 90 }]
        ≠ Except.ok r :=
  C3_validation_all_or_nothing _ _ _ (by decide) (by decide) (by decide)

/-- C4 as stated is false on the code for `close_prize_pool`: with a
caller key 2 different from the stored authority 1, the call fails with
the framework's `ConstraintHasOne` error (raised by the
`has_one = authority` constraint while the accounts are loaded), which is
a different error than the claimed `Unauthorized`. -/
theorem C4_cex :
    close_prize_pool
      { prize_pool := { authority := 1, week_id := "w4", total_distributed := 0, bump := 255 },
        prize_pool_token_amount := 1000, authority_token_amount := 0, authority := 2 }
      = Except.error ProgramError.ConstraintHasOne
    ∧ (Except.error ProgramError.ConstraintHasOne : Except ProgramError (Nat × Nat))
        ≠ Except.error ProgramError.Unauthorized := by decide

/-- C4 (amended): for every pool and caller identity different from the
stored authority, `distribute_prizes` fails with `Unauthorized`, while
`close_prize_pool` fails with the framework's `ConstraintHasOne` error
(its body's `Unauthorized` check is unreachable, because `has_one =
authority` is checked first).  Both calls return an error, so the
transaction is rolled back: no pool state changes and no events are
emitted. -/
theorem C4_amended_unauthorized (daccs : DistributeAccounts) (caccs : CloseAccounts)
    (winners : List WinnerEntry)
    (hd : daccs.prize_pool.authority ≠ daccs.authority)
    (hc : caccs.prize_pool.authority ≠ caccs.authority) :
    distribute_prizes daccs winners = Except.error ProgramError.Unauthorized
    ∧ close_prize_pool caccs = Except.error ProgramError.ConstraintHasOne := by
  constructor
  · simp only [distribute_prizes, if_neg hd]
  · simp only [close_prize_pool, if_neg hc]

/-- Witness for C4 (amended) at caller 9 against stored authority 1. -/
theorem C4_wit :
    distribute_prizes
      { prize_pool := { authority := 1, week_id := "w4", total_distributed := 5, bump := 0 },
        prize_pool_token_amount := 100, winner_token_amount := 0, authority := 9 }
      [{ wallet := 2, rank := 1, score := 99 }]
      = Except.error ProgramError.Unauthorized
    ∧ close_prize_pool
        { prize_pool := { authority := 1, week_id := "w4", total_distributed := 5, bump := 0 },
          prize_pool_token_amount := 100, authority_token_amount := 0, authority := 9 }
        = Except.error ProgramError.ConstraintHasOne :=
  C4_amended_unauthorized _ _ _ (by decide) (by decide)

/-- C5: when `close_prize_pool` is called by the pool's stored authority
on an existing record, it succeeds, the whole remaining custody balance
(if positive) is transferred to the authority's token account, the final
custody balance is 0, the record is removed from the live store, and any
second `close_prize_pool` on the same `week_id` fails because the record
is gone. -/
theorem C5_close_pool_terminal (pools : PoolStore) (week_id : String) (pool : PrizePool)
    (pool_token authority_token : Nat) (caller : Pubkey)
    (hrec : pools week_id = some pool)
    (hauth : pool.authority = caller) :
    close_prize_pool_live pools week_id pool_token authority_token caller
      = Except.ok (fun k => if k = week_id then none else pools k, 0,
                   authority_token + pool_token)
    ∧ ∀ pt at2 c2,
        close_prize_pool_live (fun k => if k = week_id then none else pools k)
          week_id pt at2 c2 = Except.error ProgramError.AccountNotInitialized := by
  constructor
  · simp only [close_prize_pool_live, hrec]
    simp only [close_prize_pool, if_pos hauth, spl_transfer]
    by_cases hp : pool_token > 0
    · rw [if_pos hp, if_pos (Nat.le_refl pool_token)]
      simp
    · rw [if_neg hp]
      have hz : pool_token = 0 := by omega
      simp [hz]
  · intro pt at2 c2
    simp [close_prize_pool_live]

/-- Witness for C5: authority 7 closes the pool of period "w5" holding
250 tokens; the custody ends at 0, the authority account at 40 + 250, the
record is removed, and a second close fails. -/
theorem C5_wit :
    close_prize_pool_live
      (fun k => if k = ("w5" : String) then
          some { authority := 7, week_id := "w5", total_distributed := 300, bump := 5 }
        else none)
      ("w5") 250 40 7
      = Except.ok (fun k => if k = ("w5" : String) then none
                   else if k = ("w5" : String) then
                     some { authority := 7, week_id := "w5", total_distributed := 300, bump := 5 }
                   else none,
                   0, 40 + 250)
    ∧ ∀ pt at2 c2,
        close_prize_pool_live
          (fun k => if k = ("w5" : String) then none
           else if k = ("w5" : String) then
             some { authority := 7, week_id := "w5", total_distributed := 300, bump := 5 }
           else none)
          ("w5") pt at2 c2 = Except.error ProgramError.AccountNotInitialized :=
  C5_close_pool_terminal
    (fun k => if k = ("w5" : String) then
        some { authority := 7, week_id := "w5", total_distributed := 300, bump := 5 }
      else none)
    ("w5")
    { authority := 7, week_id := "w5", total_distributed := 300, bump := 5 }
    250 40 7 (by decide) (by decide)

/-- C6 as stated is false on the code: the program declares no
`CustodyFailure` error.  In an authorized, funded call whose batch repeats
rank 1 three times, the third requested transfer exceeds the remaining
custody balance and the call fails with the token program's propagated
insufficient-funds error — an error that is not any variant of the
program's `ErrorCode` enum, whose only variants are `Unauthorized`,
`InvalidRank`, `ScoreTooLow` and `InsufficientFunds`. -/
theorem C6_cex :
    distribute_prizes
      { prize_pool := { authority := 1, week_id := "w6", total_distributed := 0, bump := 0 },
        prize_pool_token_amount := 1000, winner_token_amount := 0, authority := 1 }
      [{ wallet := 5, rank := 1, score := 80 }, { wallet := 6, rank := 1, score := 80 },
       { wallet := 7, rank := 1, score := 80 }]
      = Except.error ProgramError.SplInsufficientFunds
    ∧ isErrorCode ProgramError.SplInsufficientFunds = false
    ∧ ∀ e : ProgramError, isErrorCode e = true →
        e = ProgramError.Unauthorized ∨ e = ProgramError.InvalidRank ∨
        e = ProgramError.ScoreTooLow ∨ e = ProgramError.InsufficientFunds := by
  refine ⟨by decide, by decide, ?_⟩
  intro e he
  cases e <;> simp [isErrorCode] at he ⊢

/-- C6 (amended): if a custody transfer requested during the payout loop
of a `distribute_prizes` batch fails, the whole call fails, with the token
program's insufficient-funds error propagated by the `?` operator; the
program defines no `CustodyFailure` error code of its own. -/
theorem C6_amended_transfer_failure (accs : DistributeAccounts)
    (winners : List WinnerEntry) (e : ProgramError)
    (hauth : accs.prize_pool.authority = accs.authority)
    (hfunds : accs.prize_pool_token_amount > 0)
    (hval : validate_winners winners = Except.ok ())
    (hloop : payout_loop accs.prize_pool.week_id accs.prize_pool_token_amount winners
        { pool_token := accs.prize_pool_token_amount
          winner_token := accs.winner_token_amount
          total_distributed := accs.prize_pool.total_distributed
          events := [] } = Except.error e) :
    distribute_prizes accs winners = Except.error e
    ∧ e = ProgramError.SplInsufficientFunds
    ∧ isErrorCode e = false := by
  have he := payout_loop_error_eq hloop
  refine ⟨?_, he, by rw [he]; rfl⟩
  simp only [distribute_prizes, if_pos hauth, if_pos hfunds, hval, hloop]

/-- Witness for C6 (amended) on the repeated rank-1 batch whose third
transfer request exceeds the remaining custody balance. -/
theorem C6_wit :
    distribute_prizes
      { prize_pool := { authority := 2, week_id := "w6b", total_distributed := 0, bump := 0 },
        prize_pool_token_amount := 1000, winner_token_amount := 0, authority := 2 }
      [{ wallet := 5, rank := 1, score := 81 }, { wallet := 6, rank := 1, score := 82 },
       { wallet := 7, rank := 1, score := 83 }]
      = Except.error ProgramError.SplInsufficientFunds
    ∧ ProgramError.SplInsufficientFunds = ProgramError.SplInsufficientFunds
    ∧ isErrorCode ProgramError.SplInsufficientFunds = false :=
  C6_amended_transfer_failure _ _ _ (by decide) (by decide) (by decide) (by decide)

/-- C7: every successful `distribute_prizes` call leaves the pool's
`total_distributed` at least as large as before the call, so across any
sequence of successful calls on the same pool the accumulator is
monotonically non-decreasing. -/
theorem C7_total_distributed_monotone (accs accs2 : DistributeAccounts)
    (winners : List WinnerEntry) (events : List PrizeDistributed)
    (h : distribute_prizes accs winners = Except.ok (accs2, events)) :
    accs.prize_pool.total_distributed ≤ accs2.prize_pool.total_distributed := by
  obtain ⟨hauth, hfunds, hval, s, hs, ha, he⟩ := distribute_prizes_ok h
  have hm := payout_loop_total_mono hs
  rw [ha]
  simpa using hm

/-- Witness for C7: a successful call distributing 500 raises the
accumulator from 100 to 600. -/
theorem C7_wit : (100 : Nat) ≤ 600 :=
  C7_total_distributed_monotone
    { prize_pool := { authority := 1, week_id := "w7", total_distributed := 100, bump := 0 },
      prize_pool_token_amount := 1000, winner_token_amount := 0, authority := 1 }
    { prize_pool := { authority := 1, week_id := "w7", total_distributed := 600, bump := 0 },
      prize_pool_token_amount := 500, winner_token_amount := 500, authority := 1 }
    [{ wallet := 9, rank := 1, score := 80 }]
    [{ winner := 9, rank := 1, score := 80, amount := 500, week_id := "w7" }]
    (by decide)

/-- C8 as stated is false on the code: the program declares no
`AlreadyExists` error.  Initializing period "w8" while a live record for
"w8" exists does fail, but with the framework's account-already-in-use
failure from the `init` constraint, which is not any variant of the
program's `ErrorCode` enum. -/
theorem C8_cex :
    initialize_prize_pool
      (fun k => if k = ("w8" : String) then
          some { authority := 1, week_id := "w8", total_distributed := 0, bump := 255 }
        else none)
      1 ("w8") 255
      = Except.error ProgramError.AccountAlreadyInUse
    ∧ isErrorCode ProgramError.AccountAlreadyInUse = false := ⟨rfl, rfl⟩

/-- C8 (amended): calling `initialize_prize_pool` for a `week_id` whose
record already exists fails — with the framework's account-already-in-use
failure from the `init` constraint rather than a program-declared
`AlreadyExists` code — and the failing call returns no store, so the
existing record is unchanged. -/
theorem C8_amended_already_exists (pools : PoolStore) (authority : Pubkey)
    (week_id : String) (bump : Nat) (p : PrizePool)
    (h : pools week_id = some p) :
    initialize_prize_pool pools authority week_id bump
      = Except.error ProgramError.AccountAlreadyInUse
    ∧ isErrorCode ProgramError.AccountAlreadyInUse = false := by
  unfold initialize_prize_pool
  rw [h]
  exact ⟨rfl, rfl⟩

/-- Witness for C8 (amended): the double initialization of period "w8b". -/
theorem C8_wit :
    initialize_prize_pool
      (fun k => if k = ("w8b" : String) then
          some { authority := 3, week_id := "w8b", total_distributed := 0, bump := 254 }
        else none)
      4 ("w8b") 200
      = Except.error ProgramError.AccountAlreadyInUse
    ∧ isErrorCode ProgramError.AccountAlreadyInUse = false :=
  C8_amended_already_exists
    (fun k => if k = ("w8b" : String) then
        some { authority := 3, week_id := "w8b", total_distributed := 0, bump := 254 }
      else none)
    4 ("w8b") 200
    { authority := 3, week_id := "w8b", total_distributed := 0, bump := 254 }
    (by decide)

/-- C9: a successful `distribute_prizes` call emits exactly one
`PrizeDistributed` event for each entry whose computed prize amount is
positive, in the batch's input order, carrying that entry's wallet, rank
and score, the amount computed from the balance read at the start of the
call, and the pool's `week_id`; entries with computed amount 0 contribute
no event (and no transfer). -/
theorem C9_events_in_input_order (accs accs2 : DistributeAccounts)
    (winners : List WinnerEntry) (events : List PrizeDistributed)
    (h : distribute_prizes accs winners = Except.ok (accs2, events)) :
    events = winners.filterMap (fun w =>
      if 0 < calculate_prize w.rank accs.prize_pool_token_amount then
        some { winner := w.wallet, rank := w.rank, score := w.score,
               amount := calculate_prize w.rank accs.prize_pool_token_amount,
               week_id := accs.prize_pool.week_id }
      else none) := by
  obtain ⟨hauth, hfunds, hval, s, hs, ha, he⟩ := distribute_prizes_ok h
  rw [he, payout_loop_events hs]
  simp

/-- Witness for C9: with balance 2, the rank-1 entry pays 1 and produces
the only event, while the rank-3 entry computes amount 0 and produces no
event. -/
theorem C9_wit :
    ([{ winner := 1, rank := 1, score := 90, amount := 1, week_id := "w9" }] :
        List PrizeDistributed)
      = ([{ wallet := 1, rank := 1, score := 90 },
          { wallet := 2, rank := 3, score := 91 }] : List WinnerEntry).filterMap
          (fun w =>
            if 0 < calculate_prize w.rank
                ({ prize_pool := { authority := 1, week_id := "w9",
                                   total_distributed := 0, bump := 0 },
                   prize_pool_token_amount := 2, winner_token_amount := 0,
                   authority := 1 } : DistributeAccounts).prize_pool_token_amount then
              some { winner := w.wallet, rank := w.rank, score := w.score,
                     amount := calculate_prize w.rank
                       ({ prize_pool := { authority := 1, week_id := "w9",
                                          total_distributed := 0, bump := 0 },
                          prize_pool_token_amount := 2, winner_token_amount := 0,
                          authority := 1 } : DistributeAccounts).prize_pool_token_amount,
                     week_id := ({ prize_pool := { authority := 1, week_id := "w9",
                                                   total_distributed := 0, bump := 0 },
                                   prize_pool_token_amount := 2, winner_token_amount := 0,
                                   authority := 1 } : DistributeAccounts).prize_pool.week_id }
            else none) :=
  C9_events_in_input_order
    { prize_pool := { authority := 1, week_id := "w9", total_distributed := 0, bump := 0 },
      prize_pool_token_amount := 2, winner_token_amount := 0, authority := 1 }
    { prize_pool := { authority := 1, week_id := "w9", total_distributed := 1, bump := 0 },
      prize_pool_token_amount := 1, winner_token_amount := 1, authority := 1 }
    [{ wallet := 1, rank := 1, score := 90 }, { wallet := 2, rank := 3, score := 91 }]
    [{ winner := 1, rank := 1, score := 90, amount := 1, week_id := "w9" }]
    (by decide)

/-- C10: within a single `distribute_prizes` call every transfer is
credited to the one `winner_token_account` supplied with the call, whose
final balance is the initial balance plus the sum of all event amounts;
and the per-entry `wallet` field affects only the emitted events:
replacing every wallet in the batch by an arbitrary key `d` yields the
very same resulting accounts (balances and accumulator), with only the
events' `winner` fields replaced by `d`. -/
theorem C10_single_recipient (accs accs2 : DistributeAccounts)
    (winners : List WinnerEntry) (events : List PrizeDistributed) (d : Pubkey)
    (h : distribute_prizes accs winners = Except.ok (accs2, events)) :
    accs2.winner_token_amount
      = accs.winner_token_amount + (events.map PrizeDistributed.amount).sum
    ∧ distribute_prizes accs (winners.map (fun w => { w with wallet := d }))
      = Except.ok (accs2, events.map (fun ev => { ev with winner := d })) := by
  obtain ⟨hauth, hfunds, hval, s, hs, ha, he⟩ := distribute_prizes_ok h
  constructor
  · rw [ha, he, payout_loop_events hs]
    have h1 := payout_loop_winner_token hs
    simp only [List.nil_append]
    simp only at h1
    rw [events_amounts]
    simpa using h1
  · simp only [distribute_prizes, if_pos hauth, if_pos hfunds,
      validate_winners_map_wallet d winners, hval]
    have hm := @payout_loop_map_wallet d accs.prize_pool.week_id
      accs.prize_pool_token_amount winners accs.prize_pool_token_amount
      accs.winner_token_amount accs.prize_pool.total_distributed []
    simp only [List.map_nil] at hm
    rw [hm, hs]
    simp only [Except.map]
    rw [ha, he]

/-- Witness for C10: two paying entries with wallets 3 and 4; the winner
token account receives 500 + 200, and replacing both wallets by 9 changes
only the events. -/
theorem C10_wit :
    (700 : Nat) = 0 + 700
    ∧ distribute_prizes
        { prize_pool := { authority := 1, week_id := "wt", total_distributed := 0, bump := 0 },
          prize_pool_token_amount := 1000, winner_token_amount := 0, authority := 1 }
        (([{ wallet := 3, rank := 1, score := 80 },
           { wallet := 4, rank := 2, score := 85 }] : List WinnerEntry).map
          (fun w => { w with wallet := 9 }))
      = Except.ok
          ({ prize_pool := { authority := 1, week_id := "wt", total_distributed := 700, bump := 0 },
             prize_pool_token_amount := 300, winner_token_amount := 700, authority := 1 },
           (([{ winner := 3, rank := 1, score := 80, amount := 500, week_id := "wt" },
              { winner := 4, rank := 2, score := 85, amount := 200, week_id := "wt" }] :
             List PrizeDistributed).map (fun ev => { ev with winner := 9 }))) :=
  C10_single_recipient
    { prize_pool := { authority := 1, week_id := "wt", total_distributed := 0, bump := 0 },
      prize_pool_token_amount := 1000, winner_token_amount := 0, authority := 1 }
    { prize_pool := { authority := 1, week_id := "wt", total_distributed := 700, bump := 0 },
      prize_pool_token_amount := 300, winner_token_amount := 700, authority := 1 }
    [{ wallet := 3, rank := 1, score := 80 }, { wallet := 4, rank := 2, score := 85 }]
    [{ winner := 3, rank := 1, score := 80, amount := 500, week_id := "wt" },
     { winner := 4, rank := 2, score := 85, amount := 200, week_id := "wt" }]
    9 (by decide)

end PardonPrizes
